import Mathlib

/-!
Verification of the runtime-configuration resolution engine of heliocron
(`src/config.rs`) against its natural-language specification.

The repository source available here is `src/config.rs`; the sibling modules
it relies on (`parsers.rs`, `structs.rs`, `enums.rs`, `errors.rs`) as well as
the external crates (`chrono`, `toml`/`serde`, `structopt`) are modelled from
the specification at their interface, each marked `Modelled from the spec:`.
All definitions are executable; machine environment inputs (the local date and
UTC offset, the file-system read of the configuration file, the parsed
command line) are passed explicitly.
-/

namespace Heliocron

/-- Modelled from the spec: the closed event enumeration (`enums::Event`,
from `enums.rs`, not under `src/`): the eight named solar events. -/
inductive Event
| sunrise
| sunset
| civil_dawn
| civil_dusk
| nautical_dawn
| nautical_dusk
| astronomical_dawn
| astronomical_dusk
deriving DecidableEq, Repr

/-- Modelled from the spec: which coordinate axis an error refers to
(part of the `InvalidCoordinate` payload of `errors.rs`, not under `src/`). -/
inductive CoordAxis
| latitude
| longitude
deriving DecidableEq, Repr

/-- Modelled from the spec: why a coordinate string was rejected
(bad direction letter, unparsable magnitude, out of range; spec section 4.1). -/
inductive CoordFailure
| badDirectionLetter
| unparsableNumber
| outOfRange
deriving DecidableEq, Repr

/-- Modelled from the spec: the error taxonomy of `errors.rs` (not under
`src/`), spec section 7: `InvalidCoordinate` (with the offending axis and the
reason), `InvalidDate`, `InvalidOffset`, `InvalidEvent`, and the
present-but-corrupt configuration file error (named `InvalidTomlFile` in
`config.rs`). -/
inductive ConfigErrorKind
| invalidTomlFile
| invalidCoordinate (axis : CoordAxis) (why : CoordFailure)
| invalidDate
| invalidOffset
| invalidEvent
deriving DecidableEq, Repr

/-- Modelled from the spec: the top-level error type `HeliocronError`
(`errors.rs`, not under `src/`); `config.rs` only ever builds the `Config`
variant. -/
inductive HeliocronError
| config (kind : ConfigErrorKind)
deriving DecidableEq, Repr

instance {ε α : Type} [DecidableEq ε] [DecidableEq α] : DecidableEq (Except ε α) := fun a b =>
  match a, b with
  | .error x, .error y =>
      if h : x = y then .isTrue (by rw [h]) else .isFalse (fun hc => by cases hc; exact h rfl)
  | .error _, .ok _ => .isFalse (fun hc => by cases hc)
  | .ok _, .error _ => .isFalse (fun hc => by cases hc)
  | .ok x, .ok y =>
      if h : x = y then .isTrue (by rw [h]) else .isFalse (fun hc => by cases hc; exact h rfl)

/-- Splits a list of characters at every occurrence of the separator
(a substitute for `String.splitOn`, kept structurally recursive so
the kernel can evaluate it). -/
def splitOnChar (sep : Char) : List Char → List (List Char)
| [] => [[]]
| c :: rest =>
    match splitOnChar sep rest with
    | [] => if c = sep then [[], [c]] else [[c]]
    | g :: gs => if c = sep then [] :: g :: gs else (c :: g) :: gs

/-- The numeric value of a decimal digit character, if it is one. -/
def digitVal (c : Char) : Option Nat :=
  if '0' ≤ c ∧ c ≤ '9' then some (c.toNat - 48) else none

/-- Parses a non-empty, all-digit character list as a natural number. -/
def parseNatDigits (l : List Char) : Option Nat :=
  match l with
  | [] => none
  | _ => l.foldlM (fun acc c => (digitVal c).map (fun d => acc * 10 + d)) 0

/-- Modelled from the spec: parsing of a non-negative decimal magnitude
(digits with at most one decimal point), as needed by
`Coordinates::from_decimal_degrees` in `structs.rs` (not under `src/`).
Returns the magnitude as a numerator together with a power-of-ten
denominator, so the rational value is assembled with a single `mkRat`. -/
def parseDecimal (l : List Char) : Option (Nat × Nat) :=
  match splitOnChar '.' l with
  | [w] => (parseNatDigits w).map (fun n => (n, 1))
  | [w, f] => do
      let wn ← parseNatDigits w
      let fn ← parseNatDigits f
      let den := f.foldl (fun acc _ => acc * 10) 1
      pure (wn * den + fn, den)
  | _ => none

/-- Validated geographic coordinates (`structs::Coordinates`, not under
`src/`); decimal degrees modelled as exact rationals. -/
structure Coordinates where
  latitude : ℚ
  longitude : ℚ
deriving DecidableEq, Repr

/-- Whether the trailing direction letter is valid for the axis and, if so,
whether it makes the value negative (S and W do). -/
def letterSign (axis : CoordAxis) (letter : Char) : Option Bool :=
  match axis, letter with
  | .latitude, 'N' => some false
  | .latitude, 'S' => some true
  | .longitude, 'E' => some false
  | .longitude, 'W' => some true
  | _, _ => none

/-- The magnitude bound of an axis: 90 degrees for latitude, 180 for
longitude. -/
def coordBound (axis : CoordAxis) : ℚ :=
  match axis with
  | .latitude => 90
  | .longitude => 180

/-- The axis range check: accept the signed value when its magnitude is
within the axis bound, reject it as out of range otherwise. -/
def rangeCheck (axis : CoordAxis) (v : ℚ) : Except HeliocronError ℚ :=
  if -coordBound axis ≤ v ∧ v ≤ coordBound axis then .ok v
  else .error (.config (.invalidCoordinate axis .outOfRange))

/-- Modelled from the spec (section 4.1): parse one coordinate string
`<number><direction-letter>`: strip and validate the trailing letter against
the axis (N/S for latitude, E/W for longitude), parse the magnitude, apply a
negative sign for S or W, and range-check the result
(latitude in [-90, 90], longitude in [-180, 180]). -/
def parseCoordinate (axis : CoordAxis) (s : String) : Except HeliocronError ℚ :=
  match s.data.getLast? with
  | none => .error (.config (.invalidCoordinate axis .badDirectionLetter))
  | some letter =>
      match letterSign axis letter with
      | none => .error (.config (.invalidCoordinate axis .badDirectionLetter))
      | some neg =>
          match parseDecimal s.data.dropLast with
          | none => .error (.config (.invalidCoordinate axis .unparsableNumber))
          | some (num, den) =>
              rangeCheck axis (mkRat (if neg then -(num : Int) else (num : Int)) den)

/-- Modelled from the spec: `Coordinates::from_decimal_degrees` (`structs.rs`,
not under `src/`): validate the latitude string then the longitude string and
assemble the pair. -/
def from_decimal_degrees (lat lon : String) : Except HeliocronError Coordinates := do
  let la ← parseCoordinate .latitude lat
  let lo ← parseCoordinate .longitude lon
  pure ⟨la, lo⟩

/-- A signed time duration in whole seconds (`chrono::Duration` at the
precision this program uses). -/
structure Duration where
  seconds : Int
deriving DecidableEq, Repr

/-- Modelled from the spec (section 4.2): `parsers::parse_offset`
(`parsers.rs`, not under `src/`): parse `[-]HH:MM[:SS]` with an optional
leading sign applying to the whole duration; clock-style fields
(hours below 24, minutes and seconds below 60); missing seconds mean zero. -/
def parse_offset (s : String) : Except HeliocronError Duration :=
  let (neg, body) :=
    match s.data with
    | '-' :: rest => (true, rest)
    | l => (false, l)
  let fields :=
    match splitOnChar ':' body with
    | [h, m] => some (h, m, ([] : List Char), true)
    | [h, m, sec] => some (h, m, sec, false)
    | _ => none
  match fields with
  | none => .error (.config .invalidOffset)
  | some (h, m, sec, noSec) =>
      match parseNatDigits h, parseNatDigits m,
            (if noSec then some 0 else parseNatDigits sec) with
      | some hh, some mm, some ss =>
          if hh ≤ 23 ∧ mm ≤ 59 ∧ ss ≤ 59 then
            let total : Int := hh * 3600 + mm * 60 + ss
            .ok ⟨if neg then -total else total⟩
          else .error (.config .invalidOffset)
      | _, _, _ => .error (.config .invalidOffset)

/-- Modelled from the spec (section 4.3): `parsers::parse_event`
(`parsers.rs`, not under `src/`): exact, case-sensitive match against the
eight event names; anything else is an `InvalidEvent` error. -/
def parse_event (s : String) : Except HeliocronError Event :=
  if s = "sunrise" then .ok .sunrise
  else if s = "sunset" then .ok .sunset
  else if s = "civil_dawn" then .ok .civil_dawn
  else if s = "civil_dusk" then .ok .civil_dusk
  else if s = "nautical_dawn" then .ok .nautical_dawn
  else if s = "nautical_dusk" then .ok .nautical_dusk
  else if s = "astronomical_dawn" then .ok .astronomical_dawn
  else if s = "astronomical_dusk" then .ok .astronomical_dusk
  else .error (.config .invalidEvent)

/-- A calendar date (year, month, day). -/
structure LocalDate where
  year : Nat
  month : Nat
  day : Nat
deriving DecidableEq, Repr

/-- Modelled from the spec: a `chrono::DateTime<FixedOffset>` value — a
timestamp carrying an explicit fixed UTC offset in seconds. -/
structure DateTimeFixed where
  year : Nat
  month : Nat
  day : Nat
  hour : Nat
  minute : Nat
  second : Nat
  offsetSeconds : Int
deriving DecidableEq, Repr

/-- Modelled from the spec: the machine environment consulted through
`chrono::Local` — the local calendar date of today and the local UTC offset
at the moment of resolution, passed explicitly. -/
structure Env where
  today : LocalDate
  localOffsetSeconds : Int
deriving DecidableEq, Repr

/-- Today at 12:00:00 local time carrying the local fixed offset
(the default date of `get_config`, built in `config.rs` from
`Local::today().and_hms(12, 0, 0)` re-anchored to the local fixed offset). -/
def localNoon (env : Env) : DateTimeFixed :=
  ⟨env.today.year, env.today.month, env.today.day, 12, 0, 0, env.localOffsetSeconds⟩

/-- Modelled from the spec: parsing of a time-zone offset string
`[+|-]HH:MM` into an offset in seconds, as used by `parsers::parse_date`
(`parsers.rs`, not under `src/`). -/
def parseTimeZone (s : String) : Option Int :=
  match s.data with
  | sgn :: rest =>
      let neg :=
        match sgn with
        | '+' => some false
        | '-' => some true
        | _ => none
      match neg with
      | none => none
      | some n =>
          match splitOnChar ':' rest with
          | [h, m] => do
              let hh ← parseNatDigits h
              let mm ← parseNatDigits m
              if hh ≤ 23 ∧ mm ≤ 59 then
                let total : Int := hh * 3600 + mm * 60
                pure (if n then -total else total)
              else none
          | _ => none
  | [] => none

/-- Modelled from the spec (section 4.4): `parsers::parse_date`
(`parsers.rs`, not under `src/`): parse the date string against the supplied
format, anchor it at 12:00:00, and attach either the explicitly supplied
time-zone offset or the local one. Only the default `%Y-%m-%d` format is
modelled (the only format the specification and the claims exercise); the
model rejects other format strings the way an unmatchable format would. -/
def parse_date (date fmt : String) (timeZone : Option String) (localOffset : Int) :
    Except HeliocronError DateTimeFixed :=
  if fmt = "%Y-%m-%d" then
    match splitOnChar '-' date.data with
    | [y, m, d] =>
        match parseNatDigits y, parseNatDigits m, parseNatDigits d with
        | some yy, some mm, some dd =>
            if 1 ≤ mm ∧ mm ≤ 12 ∧ 1 ≤ dd ∧ dd ≤ 31 then
              match timeZone with
              | some tz =>
                  match parseTimeZone tz with
                  | some off => .ok ⟨yy, mm, dd, 12, 0, 0, off⟩
                  | none => .error (.config .invalidDate)
              | none => .ok ⟨yy, mm, dd, 12, 0, 0, localOffset⟩
            else .error (.config .invalidDate)
        | _, _, _ => .error (.config .invalidDate)
    | _ => .error (.config .invalidDate)
  else .error (.config .invalidDate)

/-- The partial file layer (`TomlConfig` in `config.rs`): at most the two
optional raw coordinate strings. -/
structure TomlConfig where
  latitude : Option String
  longitude : Option String
deriving DecidableEq, Repr

/-- `TomlConfig::new`: the empty file layer. -/
def TomlConfig.new : TomlConfig := ⟨none, none⟩

/-- `TomlConfig::from_toml` (`config.rs` lines 104-110): a failed structured
parse of the file content is silently replaced by the empty layer. -/
def TomlConfig.from_toml : Option TomlConfig → TomlConfig
| some conf => conf
| none => TomlConfig.new

/-- Trims leading and trailing spaces. -/
def trimSpaces (l : List Char) : List Char :=
  ((l.dropWhile (· = ' ')).reverse.dropWhile (· = ' ')).reverse

/-- Modelled from the spec: one line of the configuration file in the
external TOML deserialization (`toml::from_str::<TomlConfig>`, an external
crate): `key = "value"` assignments; a `latitude`/`longitude` key must carry
a quoted string, unknown keys are ignored, anything else fails the parse. -/
def parseTomlLine (acc : TomlConfig) (line : List Char) : Option TomlConfig :=
  let t := trimSpaces line
  if t = [] then some acc
  else
    match splitOnChar '=' t with
    | [k, v] =>
        let key := trimSpaces k
        let val := trimSpaces v
        match val with
        | '\"' :: rest =>
            match rest.getLast? with
            | some '\"' =>
                let str : String := ⟨rest.dropLast⟩
                if key = "latitude".data then some { acc with latitude := some str }
                else if key = "longitude".data then some { acc with longitude := some str }
                else some acc
            | _ => none
        | _ => if key = "latitude".data ∨ key = "longitude".data then none else none
    | _ => none

/-- Modelled from the spec (section 6): the structured parse of the whole
configuration file content (`toml::from_str::<TomlConfig>`, an external
crate), modelled as a line-based TOML subset; `none` is a parse error. -/
def tomlFromStr (s : String) : Option TomlConfig :=
  (splitOnChar '\n' s.data).foldlM parseTomlLine TomlConfig.new

/-- The command chosen on the command line (`Subcommand` in `config.rs`):
`Report` has no fields; `Wait` stores the offset and event as already-run
parse results (structopt applies `parsers::parse_offset` /
`parsers::parse_event` while collecting arguments, and the possibly-failed
results are embedded in the variant). -/
inductive Subcommand
| report
| wait (offset : Except HeliocronError Duration) (event : Except HeliocronError Event)
deriving DecidableEq, Repr

/-- The date-related command-line arguments (`DateArgs` in `config.rs`);
`dateFormat` defaults to `%Y-%m-%d` when the flag is absent. -/
structure DateArgs where
  date : Option String
  dateFormat : String
  timeZone : Option String
deriving DecidableEq, Repr

/-- The parsed command line (`Cli` in `config.rs`); structopt guarantees
latitude and longitude flags are supplied together, which `merge_cli_args`
re-checks by matching on the pair. -/
structure Cli where
  subcommand : Subcommand
  date_args : DateArgs
  latitude : Option String
  longitude : Option String
deriving DecidableEq, Repr

/-- The resolved configuration (`Config` in `config.rs`). -/
structure Config where
  coordinates : Coordinates
  date : DateTimeFixed
  subcommand : Option Subcommand
  event : Option Event
deriving DecidableEq, Repr

/-- `Config::merge_toml` (`config.rs` lines 121-126): replace the
coordinates only when both file-layer strings are present; otherwise the
configuration passes through unchanged. -/
def Config.merge_toml (self : Config) (toml_config : TomlConfig) :
    Except HeliocronError Config :=
  match toml_config.latitude, toml_config.longitude with
  | some latitude, some longitude =>
      (from_decimal_degrees latitude longitude).map
        (fun c => { self with coordinates := c })
  | _, _ => .ok self

/-- `Config::merge_cli_args` (`config.rs` lines 128-148): merge the
command-line coordinates when both flags are present, resolve a supplied
`--date` through `parse_date`, and unconditionally set the subcommand. -/
def Config.merge_cli_args (env : Env) (self : Config) (cli_args : Cli) :
    Except HeliocronError Config :=
  match
    (match cli_args.latitude, cli_args.longitude with
     | some latitude, some longitude =>
         (from_decimal_degrees latitude longitude).map
           (fun c => { self with coordinates := c })
     | _, _ => .ok self) with
  | .error e => .error e
  | .ok s1 =>
      match
        (match cli_args.date_args.date with
         | some date =>
             (parse_date date cli_args.date_args.dateFormat cli_args.date_args.timeZone
                 env.localOffsetSeconds).map
               (fun d => { s1 with date := d })
         | none => .ok s1) with
      | .error e => .error e
      | .ok s2 => .ok { s2 with subcommand := some cli_args.subcommand }

/-- The hard-coded default configuration built at the start of `get_config`
(`config.rs` lines 155-162): default coordinates `51.4769N, 0.0005W`, today
at local noon with the local fixed offset, no subcommand, no event. -/
def default_config (env : Env) : Except HeliocronError Config :=
  (from_decimal_degrees "51.4769N" "0.0005W").map
    (fun c => { coordinates := c, date := localNoon env, subcommand := none, event := none })

/-- The file stage of `get_config` (`config.rs` lines 164-186): a readable
file has its content structurally parsed (failures silently becoming the
empty layer via `TomlConfig::from_toml`) and merged, any merge error being
collapsed to `InvalidTomlFile`; an absent or unreadable file leaves the
defaults untouched. `file` is the result of `fs::read_to_string` (`none`
models any read error, absent or unreadable alike). -/
def fileStageConfig (env : Env) (file : Option String) : Except HeliocronError Config :=
  match default_config env with
  | .error e => .error e
  | .ok dc =>
      match file with
      | some f =>
          match dc.merge_toml (TomlConfig.from_toml (tomlFromStr f)) with
          | .ok merged => .ok merged
          | .error _ => .error (.config .invalidTomlFile)
      | none => .ok dc

/-- `get_config` (`config.rs` lines 151-195): defaults, then the file stage,
then the command-line merge. The environment, the file read result and the
collected command line are explicit inputs. -/
def get_config (env : Env) (file : Option String) (cli_args : Cli) :
    Except HeliocronError Config :=
  match fileStageConfig env file with
  | .error e => .error e
  | .ok config => config.merge_cli_args env cli_args

/-! Fixtures and helper lemmas shared by the claim theorems. -/

/-- The validated default coordinates `51.4769N, 0.0005W`. -/
def defaultCoords : Coordinates := ⟨mkRat 514769 10000, mkRat (-5) 10000⟩

/-- A fixed sample environment: today is 2024-01-01, local offset UTC. -/
def env0 : Env := ⟨⟨2024, 1, 1⟩, 0⟩

/-- Date arguments with no flags supplied (default format). -/
def daNone : DateArgs := ⟨none, "%Y-%m-%d", none⟩

/-- A bare `report` invocation with no coordinate or date flags. -/
def cliRep : Cli := ⟨.report, daNone, none, none⟩

/-- File content supplying both coordinates, `10.0N` and `20.0E`. -/
def fileBothCoords : String := "latitude = \"10.0N\"\nlongitude = \"20.0E\""

/-- File content whose latitude string is out of range. -/
def fileBadLat : String := "latitude = \"91.0N\"\nlongitude = \"0.0E\""

/-- File content whose longitude string is out of range. -/
def fileBadLon : String := "latitude = \"10.0N\"\nlongitude = \"999.0E\""

/-- Content that is not parsable TOML at all. -/
def fileGarbage : String := "][ not toml"

/-- The default configuration as a concrete record at the sample
environment. -/
def cfgDefault0 : Config := ⟨defaultCoords, ⟨2024, 1, 1, 12, 0, 0, 0⟩, none, none⟩

theorem default_config_eq (env : Env) :
    default_config env = .ok ⟨defaultCoords, localNoon env, none, none⟩ := by
  have h : from_decimal_degrees "51.4769N" "0.0005W" = .ok defaultCoords := by decide
  simp [default_config, h, Except.map]

theorem merge_toml_lone (c : Config) (t : TomlConfig)
    (h : t.latitude = none ∨ t.longitude = none) :
    Config.merge_toml c t = .ok c := by
  obtain ⟨la, lo⟩ := t
  rcases h with h | h <;> subst h
  · cases lo <;> simp [Config.merge_toml]
  · cases la <;> simp [Config.merge_toml]

theorem merge_toml_ok_frame (c : Config) (t : TomlConfig) (c' : Config)
    (h : Config.merge_toml c t = .ok c') :
    c'.date = c.date ∧ c'.subcommand = c.subcommand ∧ c'.event = c.event := by
  obtain ⟨la, lo⟩ := t
  cases la <;> cases lo <;> simp_all [Config.merge_toml]
  case some.some la lo =>
    cases hfd : from_decimal_degrees la lo <;> simp_all [Except.map]
    subst h
    simp

theorem merge_cli_args_ok_spec (env : Env) (c : Config) (cli : Cli) (c' : Config)
    (h : Config.merge_cli_args env c cli = .ok c') :
    c'.subcommand = some cli.subcommand ∧ c'.event = c.event ∧
    (cli.date_args.date = none → c'.date = c.date) ∧
    (∀ d, cli.date_args.date = some d →
      parse_date d cli.date_args.dateFormat cli.date_args.timeZone env.localOffsetSeconds
        = .ok c'.date) ∧
    ((cli.latitude = none ∨ cli.longitude = none) → c'.coordinates = c.coordinates) := by
  obtain ⟨sub, ⟨dad, daf, dat⟩, la, lo⟩ := cli
  unfold Config.merge_cli_args at h
  cases la with
  | none =>
    cases dad with
    | none =>
      cases lo <;> simp only at h <;> cases h <;> simp
    | some d =>
      cases lo <;> simp only at h <;>
      cases hpd : parse_date d daf dat env.localOffsetSeconds with
      | error e => simp [hpd, Except.map] at h
      | ok dt =>
        simp only [hpd, Except.map] at h
        cases h
        refine ⟨rfl, rfl, by simp, ?_, by simp⟩
        intro d' hd'
        cases hd'
        exact hpd
  | some lav =>
    cases lo with
    | none =>
      cases dad with
      | none => simp only at h; cases h; simp
      | some d =>
        simp only at h
        cases hpd : parse_date d daf dat env.localOffsetSeconds with
        | error e => simp [hpd, Except.map] at h
        | ok dt =>
          simp only [hpd, Except.map] at h
          cases h
          refine ⟨rfl, rfl, by simp, ?_, by simp⟩
          intro d' hd'
          cases hd'
          exact hpd
    | some lov =>
      simp only at h
      cases hfd : from_decimal_degrees lav lov with
      | error e => simp [hfd, Except.map] at h
      | ok co =>
        simp only [hfd, Except.map] at h
        cases dad with
        | none =>
          simp only at h
          cases h
          simp
        | some d =>
          simp only at h
          cases hpd : parse_date d daf dat env.localOffsetSeconds with
          | error e => simp [hpd, Except.map] at h
          | ok dt =>
            simp only [hpd, Except.map] at h
            cases h
            refine ⟨rfl, rfl, by simp, ?_, by simp⟩
            intro d' hd'
            cases hd'
            exact hpd


theorem fileStage_none (env : Env) :
    fileStageConfig env none = .ok ⟨defaultCoords, localNoon env, none, none⟩ := by
  simp [fileStageConfig, default_config_eq]

theorem fileStage_badToml (env : Env) (s : String) (h : tomlFromStr s = none) :
    fileStageConfig env (some s) = .ok ⟨defaultCoords, localNoon env, none, none⟩ := by
  have hm := merge_toml_lone ⟨defaultCoords, localNoon env, none, none⟩ TomlConfig.new
    (Or.inl rfl)
  simp [fileStageConfig, default_config_eq, h, TomlConfig.from_toml, hm]

theorem fileStage_ok_spec (env : Env) (file : Option String) (c : Config)
    (h : fileStageConfig env file = .ok c) :
    c.date = localNoon env ∧ c.subcommand = none ∧ c.event = none := by
  unfold fileStageConfig at h
  rw [default_config_eq] at h
  cases file with
  | none =>
    cases h
    simp
  | some f =>
    simp only at h
    cases hm : Config.merge_toml ⟨defaultCoords, localNoon env, none, none⟩
        (TomlConfig.from_toml (tomlFromStr f)) with
    | error e => simp [hm] at h
    | ok merged =>
      simp only [hm] at h
      cases h
      exact merge_toml_ok_frame _ _ _ hm

theorem fileStage_error_shape (env : Env) (file : Option String) (e : HeliocronError)
    (h : fileStageConfig env file = .error e) :
    e = .config .invalidTomlFile := by
  unfold fileStageConfig at h
  rw [default_config_eq] at h
  cases file with
  | none => cases h
  | some f =>
    simp only at h
    cases hm : Config.merge_toml ⟨defaultCoords, localNoon env, none, none⟩
        (TomlConfig.from_toml (tomlFromStr f)) with
    | error e2 =>
      simp only [hm] at h
      cases h
      rfl
    | ok merged => simp [hm] at h


theorem rangeCheck_error (axis : CoordAxis) (v : ℚ) (e : HeliocronError)
    (h : rangeCheck axis v = .error e) :
    e = .config (.invalidCoordinate axis .outOfRange) := by
  unfold rangeCheck at h
  split at h
  · cases h
  · cases h
    rfl

/-! The claim theorems. -/

/-- C1 (counterexample): the claim is false on the code. `fileGarbage` is
content the structured parse rejects, yet `get_config` does not return the
`InvalidTomlFile` error: `TomlConfig::from_toml` silently replaces the failed
parse with the empty layer and resolution returns a resolved configuration
built from the defaults. -/
theorem claim1_counterexample :
    tomlFromStr fileGarbage = none ∧
    get_config env0 (some fileGarbage) cliRep
      = .ok ⟨defaultCoords, ⟨2024, 1, 1, 12, 0, 0, 0⟩, some .report, none⟩ := by
  constructor
  · decide
  · decide

/-- C1 (amended): file content that fails the structured parse is silently
replaced by the empty file layer (`TomlConfig::from_toml`), so `get_config`
behaves exactly as if the file were absent; the `InvalidTomlFile` error is
never produced by a mere parse failure of the content. -/
theorem claim1_unparsable_content_ignored (env : Env) (s : String) (cli : Cli)
    (h : tomlFromStr s = none) :
    get_config env (some s) cli = get_config env none cli := by
  simp [get_config, fileStage_badToml env s h, fileStage_none env]

/-- C1 (witness): the amended statement at the concrete garbage content. -/
theorem claim1_witness :
    get_config env0 (some fileGarbage) cliRep = get_config env0 none cliRep :=
  claim1_unparsable_content_ignored env0 fileGarbage cliRep (by decide)

/-- C2: for a `wait` invocation, the offset and event parse results —
failed or not — are stored inside the `Wait` variant of the resolved
configuration, and a resolution that is otherwise unexceptional returns a
resolved configuration no matter what the two strings were; malformed
offset/event values never abort resolution. -/
theorem claim2_wait_parse_failures_deferred (env : Env) (file : Option String)
    (c : Config) (offStr evStr : String) (da : DateArgs)
    (hda : da.date = none) (hf : fileStageConfig env file = .ok c) :
    get_config env file ⟨.wait (parse_offset offStr) (parse_event evStr), da, none, none⟩
      = .ok { c with subcommand := some (.wait (parse_offset offStr) (parse_event evStr)) } := by
  simp [get_config, hf, Config.merge_cli_args, hda]

/-- C2 (witness): with a malformed offset (`25:99`) and a malformed event
name, both parses fail, yet `get_config` returns a resolved configuration
carrying the two failures inside the `Wait` variant. -/
theorem claim2_witness :
    parse_offset "25:99" = .error (.config .invalidOffset) ∧
    parse_event "midnight" = .error (.config .invalidEvent) ∧
    get_config env0 none ⟨.wait (parse_offset "25:99") (parse_event "midnight"), daNone, none, none⟩
      = .ok ⟨defaultCoords, ⟨2024, 1, 1, 12, 0, 0, 0⟩,
          some (.wait (parse_offset "25:99") (parse_event "midnight")), none⟩ :=
  ⟨by decide, by decide,
    claim2_wait_parse_failures_deferred env0 none cfgDefault0 "25:99" "midnight" daNone rfl
      (by decide)⟩

/-- C3: merge precedence at the spec values: defaults start at
`(51.4769, -0.0005)`; a file layer of `10.0N`/`20.0E` with no command-line
coordinate flags resolves to `(10.0, 20.0)`; additionally supplying the
command-line flags `5.0S`/`5.0W` resolves to `(-5.0, -5.0)`. -/
theorem claim3_merge_precedence :
    default_config env0
      = .ok ⟨⟨514769 / 10000, -(5 / 10000)⟩, ⟨2024, 1, 1, 12, 0, 0, 0⟩, none, none⟩ ∧
    get_config env0 (some fileBothCoords) cliRep
      = .ok ⟨⟨10, 20⟩, ⟨2024, 1, 1, 12, 0, 0, 0⟩, some .report, none⟩ ∧
    get_config env0 (some fileBothCoords) ⟨.report, daNone, some "5.0S", some "5.0W"⟩
      = .ok ⟨⟨-5, -5⟩, ⟨2024, 1, 1, 12, 0, 0, 0⟩, some .report, none⟩ := by
  refine ⟨?_, by decide, by decide⟩
  rw [default_config_eq]
  simp only [Except.ok.injEq, Config.mk.injEq, defaultCoords, Coordinates.mk.injEq,
    localNoon, env0]
  norm_num [Rat.mkRat_eq_div]

/-- C4: with the file absent or unreadable the file stage contributes
nothing: the configuration entering the command-line merge is exactly the
hard-coded default configuration (default coordinates, today at local noon
with the local fixed offset, no subcommand, no event), and `get_config`
proceeds with no error straight to the command-line merge of that default. -/
theorem claim4_absent_file_defaults (env : Env) (cli : Cli) :
    fileStageConfig env none = .ok ⟨defaultCoords, localNoon env, none, none⟩ ∧
    get_config env none cli
      = Config.merge_cli_args env ⟨defaultCoords, localNoon env, none, none⟩ cli ∧
    defaultCoords = ⟨514769 / 10000, -(5 / 10000)⟩ := by
  refine ⟨fileStage_none env, by simp [get_config, fileStage_none env], ?_⟩
  simp only [defaultCoords, Coordinates.mk.injEq]
  norm_num [Rat.mkRat_eq_div]

/-- C5: a file layer that carries only one of the two coordinate strings
never overrides anything and never fails: `merge_toml` returns the prior
configuration unchanged. -/
theorem claim5_lone_field_ignored (c : Config) (t : TomlConfig)
    (h : t.latitude = none ∨ t.longitude = none) :
    Config.merge_toml c t = .ok c :=
  merge_toml_lone c t h

/-- C5 (witness): a lone latitude string in the file layer leaves the
default configuration untouched. -/
theorem claim5_witness :
    Config.merge_toml cfgDefault0 ⟨some "10.0N", none⟩ = .ok cfgDefault0 :=
  claim5_lone_field_ignored cfgDefault0 ⟨some "10.0N", none⟩ (Or.inr rfl)


/-- C6: the subcommand is set exactly once, unconditionally, by the
command-line merge: no earlier stage sets it (the file stage always yields
`none`), `merge_cli_args` always sets it to the chosen subcommand, and every
configuration `get_config` returns carries it. -/
theorem claim6_subcommand_set_once :
    (∀ (env : Env) (file : Option String) (c : Config),
      fileStageConfig env file = .ok c → c.subcommand = none) ∧
    (∀ (env : Env) (c : Config) (cli : Cli) (c' : Config),
      Config.merge_cli_args env c cli = .ok c' → c'.subcommand = some cli.subcommand) ∧
    (∀ (env : Env) (file : Option String) (cli : Cli) (c : Config),
      get_config env file cli = .ok c → c.subcommand = some cli.subcommand) := by
  refine ⟨fun env file c h => (fileStage_ok_spec env file c h).2.1,
          fun env c cli c' h => (merge_cli_args_ok_spec env c cli c' h).1,
          fun env file cli c h => ?_⟩
  unfold get_config at h
  cases hf : fileStageConfig env file with
  | error e => simp [hf] at h
  | ok c0 =>
    simp only [hf] at h
    exact (merge_cli_args_ok_spec env c0 cli c h).1

/-- C6 (witness): the configuration resolved from a bare `report`
invocation carries exactly that subcommand. -/
theorem claim6_witness :
    (⟨defaultCoords, ⟨2024, 1, 1, 12, 0, 0, 0⟩, some .report, none⟩ : Config).subcommand
      = some cliRep.subcommand :=
  claim6_subcommand_set_once.2.2 env0 none cliRep _ (by decide)

/-- C7: with no `--date` flag the resolved date is today at local noon with
the local fixed offset; with a `--date` flag the date stored in the merged
configuration is exactly the result of `parse_date` on the flag value, the
supplied format and the optional `--time-zone`; in particular
`--date 2024-06-21 --time-zone +02:00` resolves to 2024-06-21T12:00:00+02:00
whatever the local environment is. -/
theorem claim7_date_resolution :
    (∀ (env : Env) (file : Option String) (cli : Cli) (c : Config),
      cli.date_args.date = none → get_config env file cli = .ok c →
      c.date = localNoon env) ∧
    (∀ (env : Env) (c : Config) (cli : Cli) (c' : Config) (d : String),
      cli.date_args.date = some d → Config.merge_cli_args env c cli = .ok c' →
      parse_date d cli.date_args.dateFormat cli.date_args.timeZone env.localOffsetSeconds
        = .ok c'.date) ∧
    (∀ env : Env,
      get_config env none ⟨.report, ⟨some "2024-06-21", "%Y-%m-%d", some "+02:00"⟩, none, none⟩
        = .ok ⟨defaultCoords, ⟨2024, 6, 21, 12, 0, 0, 7200⟩, some .report, none⟩) := by
  refine ⟨fun env file cli c hd h => ?_, fun env c cli c' d hd h =>
    (merge_cli_args_ok_spec env c cli c' h).2.2.2.1 d hd, fun env => ?_⟩
  · unfold get_config at h
    cases hf : fileStageConfig env file with
    | error e => simp [hf] at h
    | ok c0 =>
      simp only [hf] at h
      have hdate := (merge_cli_args_ok_spec env c0 cli c h).2.2.1 hd
      rw [hdate]
      exact (fileStage_ok_spec env file c0 hf).1
  · have hp : parse_date "2024-06-21" "%Y-%m-%d" (some "+02:00") env.localOffsetSeconds
        = .ok ⟨2024, 6, 21, 12, 0, 0, 7200⟩ := rfl
    simp [get_config, fileStage_none env, Config.merge_cli_args, hp, Except.map]

/-- C7 (witness): the default-path conjunct at the sample environment — a
bare `report` invocation resolves to the sample date at noon UTC. -/
theorem claim7_witness :
    (⟨defaultCoords, ⟨2024, 1, 1, 12, 0, 0, 0⟩, some .report, none⟩ : Config).date
      = localNoon env0 :=
  claim7_date_resolution.1 env0 none cliRep _ rfl (by decide)

/-- C8 (counterexample): the claim is false on the code. The two file
layers below fail on different coordinate fields, and the underlying
coordinate errors do identify the failing axis and reason; but `get_config`
collapses both to the identical payload-free `InvalidTomlFile` error, so the
error a file-layer coordinate validation failure produces does not identify
which coordinate field was invalid or why. -/
theorem claim8_counterexample :
    parseCoordinate .latitude "91.0N"
      = .error (.config (.invalidCoordinate .latitude .outOfRange)) ∧
    parseCoordinate .longitude "999.0E"
      = .error (.config (.invalidCoordinate .longitude .outOfRange)) ∧
    get_config env0 (some fileBadLat) cliRep = .error (.config .invalidTomlFile) ∧
    get_config env0 (some fileBadLon) cliRep = .error (.config .invalidTomlFile) := by
  refine ⟨by decide, by decide, by decide, by decide⟩

/-- C8 (amended): every fatal error of the file stage is exactly the
`InvalidTomlFile` error — it identifies the configuration file as the
offending source but carries no field information; the offending axis and
the reason are identified only by the coordinate error that the coordinate
validation itself produced (which the file stage discards). -/
theorem claim8_file_error_identifies_source_only :
    (∀ (env : Env) (file : Option String) (e : HeliocronError),
      fileStageConfig env file = .error e → e = .config .invalidTomlFile) ∧
    (∀ (axis : CoordAxis) (s : String) (e : HeliocronError),
      parseCoordinate axis s = .error e →
      ∃ why, e = .config (.invalidCoordinate axis why)) := by
  refine ⟨fun env file e h => fileStage_error_shape env file e h, fun axis s e h => ?_⟩
  unfold parseCoordinate at h
  cases hl : s.data.getLast? with
  | none =>
    simp only [hl] at h
    cases h
    exact ⟨_, rfl⟩
  | some letter =>
    simp only [hl] at h
    cases hsg : letterSign axis letter with
    | none =>
      simp only [hsg] at h
      cases h
      exact ⟨_, rfl⟩
    | some neg =>
      simp only [hsg] at h
      cases hd : parseDecimal s.data.dropLast with
      | none =>
        simp only [hd] at h
        cases h
        exact ⟨_, rfl⟩
      | some p =>
        obtain ⟨num, den⟩ := p
        simp only [hd] at h
        exact ⟨_, rangeCheck_error _ _ _ h⟩

/-- C8 (witness): both halves at a concrete invalid latitude file. -/
theorem claim8_witness :
    (HeliocronError.config .invalidTomlFile) = .config .invalidTomlFile ∧
    ∃ why, (HeliocronError.config (.invalidCoordinate .latitude .outOfRange))
      = .config (.invalidCoordinate .latitude why) :=
  ⟨claim8_file_error_identifies_source_only.1 env0 (some fileBadLat) _ (by decide),
   claim8_file_error_identifies_source_only.2 .latitude "91.0N" _ (by decide)⟩

/-- C9: the file-layer merge is frame-limited to the coordinates: the date,
subcommand and event of the result always equal those of the input, and
when the layer does not supply both coordinate strings the coordinates are
unchanged as well. -/
theorem claim9_merge_toml_frame (c : Config) (t : TomlConfig) (c' : Config)
    (h : Config.merge_toml c t = .ok c') :
    c'.date = c.date ∧ c'.subcommand = c.subcommand ∧ c'.event = c.event ∧
    ((t.latitude = none ∨ t.longitude = none) → c'.coordinates = c.coordinates) := by
  obtain ⟨h1, h2, h3⟩ := merge_toml_ok_frame c t c' h
  refine ⟨h1, h2, h3, fun hl => ?_⟩
  rw [merge_toml_lone c t hl] at h
  cases h
  rfl

/-- C9 (witness): a file layer overriding both coordinates changes nothing
but the coordinates of the default configuration. -/
theorem claim9_witness :
    ({cfgDefault0 with coordinates := ⟨10, 20⟩} : Config).date = cfgDefault0.date ∧
    ({cfgDefault0 with coordinates := ⟨10, 20⟩} : Config).subcommand
      = cfgDefault0.subcommand ∧
    ({cfgDefault0 with coordinates := ⟨10, 20⟩} : Config).event = cfgDefault0.event ∧
    (((⟨some "10.0N", some "20.0E"⟩ : TomlConfig).latitude = none ∨
      (⟨some "10.0N", some "20.0E"⟩ : TomlConfig).longitude = none) →
      ({cfgDefault0 with coordinates := ⟨10, 20⟩} : Config).coordinates
        = cfgDefault0.coordinates) :=
  claim9_merge_toml_frame cfgDefault0 ⟨some "10.0N", some "20.0E"⟩ _ (by decide)

/-- C10: the top-level event field is `none` in every configuration
`get_config` returns: the defaults initialize it to `none` and neither merge
stage ever assigns it. -/
theorem claim10_event_always_none :
    (∀ (env : Env) (c : Config), default_config env = .ok c → c.event = none) ∧
    (∀ (c : Config) (t : TomlConfig) (c' : Config),
      Config.merge_toml c t = .ok c' → c'.event = c.event) ∧
    (∀ (env : Env) (c : Config) (cli : Cli) (c' : Config),
      Config.merge_cli_args env c cli = .ok c' → c'.event = c.event) ∧
    (∀ (env : Env) (file : Option String) (cli : Cli) (c : Config),
      get_config env file cli = .ok c → c.event = none) := by
  refine ⟨fun env c h => ?_, fun c t c' h => (merge_toml_ok_frame c t c' h).2.2,
          fun env c cli c' h => (merge_cli_args_ok_spec env c cli c' h).2.1,
          fun env file cli c h => ?_⟩
  · rw [default_config_eq] at h
    cases h
    rfl
  · unfold get_config at h
    cases hf : fileStageConfig env file with
    | error e => simp [hf] at h
    | ok c0 =>
      simp only [hf] at h
      rw [(merge_cli_args_ok_spec env c0 cli c h).2.1]
      exact (fileStage_ok_spec env file c0 hf).2.2

/-- C10 (witness): the configuration resolved from a bare `report`
invocation has no top-level event. -/
theorem claim10_witness :
    (⟨defaultCoords, ⟨2024, 1, 1, 12, 0, 0, 0⟩, some .report, none⟩ : Config).event = none :=
  claim10_event_always_none.2.2.2 env0 none cliRep _ (by decide)

end Heliocron
